import Mathlib

/-!
Shallow embedding of `src/codimension/flowui/groupitems.py` and
`src/flowparser/setup.py` from the codimension repository, together with
theorems about the group-item rendering, painting and scene-drawing logic.

Coordinates and sizes are modelled as integers (`ℤ`), matching the integer
pixel arithmetic of the Python code; the one place the Python code performs
true (float) division — the horizontal centring shift of the title text in
`paint` — is modelled over the rationals (`ℚ`).
-/

namespace Codimension

/-- The subset of the canvas settings object used by the group items. -/
structure Settings where
  hCellPadding : ℤ
  vCellPadding : ℤ
  hTextPadding : ℤ
  vTextPadding : ℤ
  emptyGroupXShift : ℤ
  emptyGroupYShift : ℤ
  collapsedGroupXShift : ℤ
  collapsedGroupYShift : ℤ
  minWidth : ℤ
  mainLine : ℤ
  openGroupHSpacer : ℤ
  openGroupVSpacer : ℤ
  selectPenWidth : ℤ
  deriving Repr, DecidableEq

/-- Result of `getBoundingRect(text)`: the text metrics rectangle. -/
structure TextRect where
  width : ℤ
  height : ℤ
  deriving Repr, DecidableEq

/-- Outcome of a `render()` call: the returned `(width, height)` pair and
the stored `minWidth` / `minHeight` attributes. -/
structure RenderResult where
  width : ℤ
  height : ℤ
  minWidth : ℤ
  minHeight : ℤ
  deriving Repr, DecidableEq

/-- An item added to the graphics scene by a `draw()` call, in the order of
the `scene.addItem` calls. -/
inductive SceneItem where
  /-- the group's own rectangle item (`scene.addItem(self)` after `setRect`) -/
  | groupRect (x y w h : ℤ)
  /-- a `Connector(canvas, x1, y1, x2, y2)` -/
  | connector (x1 y1 x2 y2 : ℤ)
  /-- the `GroupCornerControl` after `moveTo(baseX, baseY)` -/
  | cornerControl (x y : ℤ)
  deriving Repr, DecidableEq

/-- Whether a scene item is a `Connector`. -/
def SceneItem.isConnector : SceneItem → Bool
  | .connector _ _ _ _ => true
  | _ => false

/-- A painter command issued by a `paint()` call.  `drawText` receives a
rational x-coordinate because the Python code adds a float centring shift. -/
inductive PaintCmd where
  | drawRect (x y w h : ℤ)
  | drawText (x : ℚ) (y w h : ℤ) (text : String)
  deriving Repr, DecidableEq

/-- Whether a painter command is a `drawRect`. -/
def PaintCmd.isRect : PaintCmd → Bool
  | .drawRect _ _ _ _ => true
  | _ => false

/-! ## HGroupSpacerCell -/

/-- Mutable fields of `HGroupSpacerCell` touched by `render` / `draw`. -/
structure HGroupSpacerCellState where
  count : ℤ
  width : ℤ
  height : ℤ
  minWidth : ℤ
  minHeight : ℤ
  baseX : ℤ
  baseY : ℤ
  deriving Repr, DecidableEq

/-- `HGroupSpacerCell.render`: width is `count * 2 * openGroupHSpacer`,
height is `0`; `minWidth` / `minHeight` copy them.  Returns the new state
and the `(width, height)` pair the method returns. -/
def HGroupSpacerCell.render (s : Settings) (c : HGroupSpacerCellState) :
    HGroupSpacerCellState × (ℤ × ℤ) :=
  let w := c.count * 2 * s.openGroupHSpacer
  let h := 0
  ({ c with width := w, height := h, minWidth := w, minHeight := h }, (w, h))

/-- `HGroupSpacerCell.draw`: records `baseX` / `baseY` and adds nothing to
the scene. -/
def HGroupSpacerCell.draw (c : HGroupSpacerCellState) (baseX baseY : ℤ) :
    HGroupSpacerCellState × List SceneItem :=
  ({ c with baseX := baseX, baseY := baseY }, [])

/-! ## GroupItemBase -/

/-- The `ref` attribute of a CML comment reference: source positions. -/
structure CMLRefData where
  beginLine : ℤ
  endLine : ℤ
  /-- the `begin` attribute (absolute position) -/
  beginPos : ℤ
  /-- the `end` attribute (absolute position) -/
  endPos : ℤ
  deriving Repr, DecidableEq

/-- A CML group-begin / group-end comment reference. -/
structure CMLRef where
  id : ℤ
  ref : CMLRefData
  title : String
  deriving Repr, DecidableEq

/-- The fields of `GroupItemBase` set by `__init__`: `groupEndCMLRef`
starts out as `None`, hence the `Option`. -/
structure GroupItemBase where
  groupBeginCMLRef : CMLRef
  groupEndCMLRef : Option CMLRef
  isTerminal : Bool
  deriving Repr, DecidableEq

/-- `GroupItemBase.getLineRange`: `[beginCMLRef.ref.beginLine,
endCMLRef.ref.endLine]`.  Dereferencing a `None` `groupEndCMLRef` is an
`AttributeError`, modelled as `none`. -/
def GroupItemBase.getLineRange (g : GroupItemBase) : Option (List ℤ) :=
  match g.groupEndCMLRef with
  | none => none
  | some e => some [g.groupBeginCMLRef.ref.beginLine, e.ref.endLine]

/-- `GroupItemBase.getAbsPosRange`: `[beginCMLRef.ref.begin,
endCMLRef.ref.end]`, with the same `None`-dereference caveat. -/
def GroupItemBase.getAbsPosRange (g : GroupItemBase) : Option (List ℤ) :=
  match g.groupEndCMLRef with
  | none => none
  | some e => some [g.groupBeginCMLRef.ref.beginPos, e.ref.endPos]

/-- `GroupItemBase.getSelectTooltip`:
`'Group at lines ' + str(lineRange[0]) + "-" + str(lineRange[1])`. -/
def GroupItemBase.getSelectTooltip (g : GroupItemBase) : Option String :=
  (g.getLineRange).bind fun lineRange =>
    (lineRange.get? 0).bind fun a =>
      (lineRange.get? 1).map fun b =>
        "Group at lines " ++ toString a ++ "-" ++ toString b

/-! ## EmptyGroup -/

/-- `EmptyGroup.N_BACK_RECT = 2`. -/
def EmptyGroup.nBackRect : ℕ := 2

/-- `EmptyGroup.render`: height is the text height plus
`2 * (vCellPadding + vTextPadding) + N_BACK_RECT * emptyGroupYShift`;
width is the text width plus
`2 * (hCellPadding + hTextPadding) + N_BACK_RECT * emptyGroupXShift`,
clamped from below by `settings.minWidth`. -/
def EmptyGroup.render (s : Settings) (textRect : TextRect) : RenderResult :=
  let vPadding := 2 * (s.vCellPadding + s.vTextPadding) +
                  (EmptyGroup.nBackRect : ℤ) * s.emptyGroupYShift
  let minHeight := textRect.height + vPadding
  let hPadding := 2 * (s.hCellPadding + s.hTextPadding) +
                  (EmptyGroup.nBackRect : ℤ) * s.emptyGroupXShift
  let minWidth := max (textRect.width + hPadding) s.minWidth
  { width := minWidth, height := minHeight,
    minWidth := minWidth, minHeight := minHeight }

/-- `EmptyGroup.draw`: a connector down the main line over the full cell
height, then the rectangle item itself. -/
def EmptyGroup.draw (s : Settings) (height minWidth minHeight : ℤ)
    (baseX baseY : ℤ) : List SceneItem :=
  let penWidth := s.selectPenWidth - 1
  [SceneItem.connector (baseX + s.mainLine) baseY
      (baseX + s.mainLine) (baseY + height),
   SceneItem.groupRect (baseX + s.hCellPadding - penWidth)
      (baseY + s.vCellPadding - penWidth)
      (minWidth - 2 * s.hCellPadding + 2 * penWidth)
      (minHeight - 2 * s.vCellPadding + 2 * penWidth)]

/-- The common width of the three stacked rectangles of `EmptyGroup.paint`. -/
def EmptyGroup.rectWidth (s : Settings) (minWidth : ℤ) : ℤ :=
  minWidth - 2 * s.hCellPadding - (EmptyGroup.nBackRect : ℤ) * s.emptyGroupXShift

/-- The common height of the three stacked rectangles of `EmptyGroup.paint`. -/
def EmptyGroup.rectHeight (s : Settings) (minHeight : ℤ) : ℤ :=
  minHeight - 2 * s.vCellPadding - (EmptyGroup.nBackRect : ℤ) * s.emptyGroupYShift

/-- The `for rectNum in range(N_BACK_RECT, -1, -1)` loop of
`EmptyGroup.paint`: rectangles drawn back to front. -/
def EmptyGroup.paintRects (s : Settings) (baseX baseY minWidth minHeight : ℤ) :
    List PaintCmd :=
  (List.range (EmptyGroup.nBackRect + 1)).reverse.map fun rectNum =>
    PaintCmd.drawRect
      (baseX + s.hCellPadding + (rectNum : ℤ) * s.emptyGroupXShift)
      (baseY + s.vCellPadding +
        ((EmptyGroup.nBackRect : ℤ) - (rectNum : ℤ)) * s.emptyGroupYShift)
      (EmptyGroup.rectWidth s minWidth) (EmptyGroup.rectHeight s minHeight)

/-- The `drawText` call of `EmptyGroup.paint`: the title text centred
horizontally in the front rectangle. -/
def EmptyGroup.paintText (s : Settings) (baseX baseY minWidth : ℤ)
    (textRect : TextRect) (text : String) : PaintCmd :=
  let textWidth := textRect.width + 2 * s.hTextPadding
  let textShift : ℚ := ((EmptyGroup.rectWidth s minWidth : ℚ) - (textWidth : ℚ)) / 2
  PaintCmd.drawText
    ((baseX : ℚ) + (s.hCellPadding : ℚ) + (s.hTextPadding : ℚ) + textShift)
    (baseY + s.vCellPadding + s.vTextPadding +
      (EmptyGroup.nBackRect : ℤ) * s.emptyGroupYShift)
    textRect.width textRect.height text

/-- `EmptyGroup.paint`: the three stacked rectangles followed by the text. -/
def EmptyGroup.paint (s : Settings) (baseX baseY minWidth minHeight : ℤ)
    (textRect : TextRect) (text : String) : List PaintCmd :=
  EmptyGroup.paintRects s baseX baseY minWidth minHeight ++
  [EmptyGroup.paintText s baseX baseY minWidth textRect text]

/-! ## CollapsedGroup -/

/-- `CollapsedGroup.N_BACK_RECT = 2`. -/
def CollapsedGroup.nBackRect : ℕ := 2

/-- `CollapsedGroup.render`: same shape as `EmptyGroup.render` but with the
`collapsedGroup` shift settings. -/
def CollapsedGroup.render (s : Settings) (textRect : TextRect) : RenderResult :=
  let vPadding := 2 * (s.vCellPadding + s.vTextPadding) +
                  (CollapsedGroup.nBackRect : ℤ) * s.collapsedGroupYShift
  let minHeight := textRect.height + vPadding
  let hPadding := 2 * (s.hCellPadding + s.hTextPadding) +
                  (CollapsedGroup.nBackRect : ℤ) * s.collapsedGroupXShift
  let minWidth := max (textRect.width + hPadding) s.minWidth
  { width := minWidth, height := minHeight,
    minWidth := minWidth, minHeight := minHeight }

/-- The common width of the three stacked rectangles of
`CollapsedGroup.paint`. -/
def CollapsedGroup.rectWidth (s : Settings) (minWidth : ℤ) : ℤ :=
  minWidth - 2 * s.hCellPadding -
    (CollapsedGroup.nBackRect : ℤ) * s.collapsedGroupXShift

/-- The common height of the three stacked rectangles of
`CollapsedGroup.paint`. -/
def CollapsedGroup.rectHeight (s : Settings) (minHeight : ℤ) : ℤ :=
  minHeight - 2 * s.vCellPadding -
    (CollapsedGroup.nBackRect : ℤ) * s.collapsedGroupYShift

/-- The `for rectNum in range(N_BACK_RECT, -1, -1)` loop of
`CollapsedGroup.paint`. -/
def CollapsedGroup.paintRects (s : Settings)
    (baseX baseY minWidth minHeight : ℤ) : List PaintCmd :=
  (List.range (CollapsedGroup.nBackRect + 1)).reverse.map fun rectNum =>
    PaintCmd.drawRect
      (baseX + s.hCellPadding + (rectNum : ℤ) * s.collapsedGroupXShift)
      (baseY + s.vCellPadding +
        ((CollapsedGroup.nBackRect : ℤ) - (rectNum : ℤ)) * s.collapsedGroupYShift)
      (CollapsedGroup.rectWidth s minWidth) (CollapsedGroup.rectHeight s minHeight)

/-- The `drawText` call of `CollapsedGroup.paint`. -/
def CollapsedGroup.paintText (s : Settings) (baseX baseY minWidth : ℤ)
    (textRect : TextRect) (text : String) : PaintCmd :=
  let textWidth := textRect.width + 2 * s.hTextPadding
  let textShift : ℚ :=
    ((CollapsedGroup.rectWidth s minWidth : ℚ) - (textWidth : ℚ)) / 2
  PaintCmd.drawText
    ((baseX : ℚ) + (s.hCellPadding : ℚ) + (s.hTextPadding : ℚ) + textShift)
    (baseY + s.vCellPadding + s.vTextPadding +
      (CollapsedGroup.nBackRect : ℤ) * s.collapsedGroupYShift)
    textRect.width textRect.height text

/-- `CollapsedGroup.paint`: the three stacked rectangles followed by the
text. -/
def CollapsedGroup.paint (s : Settings) (baseX baseY minWidth minHeight : ℤ)
    (textRect : TextRect) (text : String) : List PaintCmd :=
  CollapsedGroup.paintRects s baseX baseY minWidth minHeight ++
  [CollapsedGroup.paintText s baseX baseY minWidth textRect text]

/-! ## OpenedGroupBegin / OpenedGroupEnd -/

/-- `OpenedGroupBegin.draw`: the group rectangle item first, then — only
when `isTerminal` is false — the nested connector, then the top-left
corner control. -/
def OpenedGroupBegin.draw (s : Settings) (isTerminal : Bool)
    (selfAndDeeperNestLevel groupWidth groupHeight : ℤ)
    (baseX baseY : ℤ) : List SceneItem :=
  let penWidth := s.selectPenWidth - 1
  let fullGroupWidth := groupWidth + 2 * s.openGroupHSpacer
  let rectItem := SceneItem.groupRect
    (baseX - penWidth + s.openGroupHSpacer)
    (baseY - penWidth + s.openGroupVSpacer)
    (fullGroupWidth + 2 * penWidth)
    (groupHeight + 2 * (penWidth + s.openGroupVSpacer))
  let connectorItems :=
    if isTerminal then []
    else
      let xPos := baseX + s.mainLine +
                  selfAndDeeperNestLevel * (2 * s.openGroupHSpacer)
      [SceneItem.connector xPos baseY xPos (baseY + s.openGroupVSpacer * 2)]
  [rectItem] ++ connectorItems ++ [SceneItem.cornerControl baseX baseY]

/-- `OpenedGroupEnd.draw`: nothing when `isTerminal`, otherwise a single
connector at the nesting-dependent x offset. -/
def OpenedGroupEnd.draw (s : Settings) (isTerminal : Bool)
    (selfAndDeeperNestLevel : ℤ) (baseX baseY : ℤ) : List SceneItem :=
  if isTerminal then []
  else
    let xPos := baseX + s.mainLine +
                selfAndDeeperNestLevel * (2 * s.openGroupHSpacer)
    [SceneItem.connector xPos baseY xPos (baseY + s.openGroupVSpacer * 2)]

/-! ## GroupCornerControl hover behaviour and setHighlight -/

/-- The observable state of an `OpenedGroupBegin` relevant to highlighting,
plus whether the title popup is currently shown for it. -/
structure GroupHoverState where
  highlight : Bool
  selected : Bool
  popupShown : Bool
  deriving Repr, DecidableEq

/-- `OpenedGroupBegin.setHighlight`: stores the new value when it differs
and calls `update()` only when it differs and the item is not selected.
Returns the new state and whether `update()` was requested. -/
def OpenedGroupBegin.setHighlight (g : GroupHoverState) (newValue : Bool) :
    GroupHoverState × Bool :=
  if g.highlight ≠ newValue then
    ({ g with highlight := newValue }, !g.selected)
  else
    (g, false)

/-- `GroupCornerControl.hoverEnterEvent`: highlight the group and show the
title popup iff the title is truthy (non-empty). -/
def GroupCornerControl.hoverEnterEvent (g : GroupHoverState) (title : String) :
    GroupHoverState × Bool :=
  let (g1, upd) := OpenedGroupBegin.setHighlight g true
  ({ g1 with popupShown := if title ≠ "" then true else g1.popupShown }, upd)

/-- `GroupCornerControl.hoverLeaveEvent`: un-highlight the group and hide
the popup. -/
def GroupCornerControl.hoverLeaveEvent (g : GroupHoverState) :
    GroupHoverState × Bool :=
  let (g1, upd) := OpenedGroupBegin.setHighlight g false
  ({ g1 with popupShown := false }, upd)

/-! ## GroupTitlePopup -/

/-- A 2D point, used for the coordinate-system mappings of the popup. -/
structure Point where
  x : ℤ
  y : ℤ
  deriving Repr, DecidableEq

/-- `GroupTitlePopup.resize`: map the corner control's bounding-rect
top-left corner item → scene → view → global, then move the popup so its
top-left corner is at `(pos.x, pos.y - height - 2)`.  The three Qt mapping
functions are taken as parameters. -/
def GroupTitlePopup.resize (mapToScene mapFromScene mapToGlobal : Point → Point)
    (boundingRectTopLeft : Point) (popupHeight : ℤ) : Point :=
  let sceneP := mapToScene boundingRectTopLeft
  let viewP := mapFromScene sceneP
  let pos := mapToGlobal viewP
  { x := pos.x, y := pos.y - popupHeight - 2 }

/-- Observable popup actions performed by `GroupTitlePopup.show`. -/
inductive PopupEvent where
  | move (x y : ℤ)
  | shown
  deriving Repr, DecidableEq

/-- `GroupTitlePopup.show`: move the popup off-screen to
`(0, screenHeight + 128)`, show it, then reposition it via `resize`. -/
def GroupTitlePopup.showTrace (screenHeight : ℤ)
    (mapToScene mapFromScene mapToGlobal : Point → Point)
    (boundingRectTopLeft : Point) (popupHeight : ℤ) : List PopupEvent :=
  let finalPos := GroupTitlePopup.resize mapToScene mapFromScene mapToGlobal
                    boundingRectTopLeft popupHeight
  [PopupEvent.move 0 (screenHeight + 128),
   PopupEvent.shown,
   PopupEvent.move finalPos.x finalPos.y]

/-! ## flowparser setup.py -/

/-- A native extension declared in a `setup()` call. -/
structure PyExtension where
  name : String
  sources : List String
  extra_compile_args : List String
  extra_link_args : List String
  deriving Repr, DecidableEq

/-- The arguments of a `setup()` call that concern the built artefacts. -/
structure SetupCall where
  name : String
  version : String
  py_modules : List String
  ext_modules : List PyExtension
  deriving Repr, DecidableEq

/-- A top-level statement of the packaging script. -/
inductive PyStatement where
  | importStmt (module : String) (names : List String)
  | assign (target value : String)
  | funcDef (name : String)
  | classDef (name : String)
  | setupCall (call : SetupCall)
  deriving Repr, DecidableEq

/-- Whether a statement is a `setup()` call. -/
def PyStatement.isSetupCall : PyStatement → Bool
  | .setupCall _ => true
  | _ => false

/-- Whether a statement defines a function or a class. -/
def PyStatement.isDef : PyStatement → Bool
  | .funcDef _ => true
  | .classDef _ => true
  | _ => false

/-- `src/flowparser/setup.py`, statement by statement: one import, two
assignments, one `setup()` call. -/
def flowparserSetupScript : List PyStatement :=
  [PyStatement.importStmt "distutils.core" ["setup", "Extension"],
   PyStatement.assign "long_description"
     ("Python language control flow parser.\n" ++
      "Written as a part of the Codimension project, this parser\n" ++
      "aims at pulling all the necessery data to build a control\n" ++
      "flow diagram."),
   PyStatement.assign "version" "trunk",
   PyStatement.setupCall
     { name := "cdmpycfparser",
       version := "trunk",
       py_modules := ["cdmcfparser"],
       ext_modules :=
         [{ name := "_cdmpycfparser",
            sources := ["cdmpycfparser.c", "lexerutils.c",
                        "pythoncontrolflowLexer.c",
                        "pythoncontrolflowParser.c"],
            extra_compile_args :=
              ["-Wno-unused", "-fomit-frame-pointer",
               "-DCDM_PY_PARSER_VERSION=\x22trunk\x22",
               "-I../thirdparty/libantlr3c-3.2",
               "-I../thirdparty/libantlr3c-3.2/include",
               "-ffast-math"],
            extra_link_args :=
              ["../thirdparty/libantlr3c-3.2/.libs/libantlr3c.a"] }] }]

/-! ## Theorems -/

/-- C1: `EmptyGroup.render` and `CollapsedGroup.render` compute the
bounding box from the text metrics plus padding: the returned height is
`textRect.height + 2 * (vCellPadding + vTextPadding) + N_BACK_RECT * YShift`
and the returned width is
`max (textRect.width + 2 * (hCellPadding + hTextPadding) + N_BACK_RECT * XShift)
minWidth`; in particular the returned width is never below
`settings.minWidth`. -/
theorem render_bounding_box_from_text_metrics (s : Settings) (tr : TextRect) :
    (EmptyGroup.render s tr).height =
      tr.height + 2 * (s.vCellPadding + s.vTextPadding) +
        (EmptyGroup.nBackRect : ℤ) * s.emptyGroupYShift ∧
    (EmptyGroup.render s tr).width =
      max (tr.width + 2 * (s.hCellPadding + s.hTextPadding) +
        (EmptyGroup.nBackRect : ℤ) * s.emptyGroupXShift) s.minWidth ∧
    s.minWidth ≤ (EmptyGroup.render s tr).width ∧
    (CollapsedGroup.render s tr).height =
      tr.height + 2 * (s.vCellPadding + s.vTextPadding) +
        (CollapsedGroup.nBackRect : ℤ) * s.collapsedGroupYShift ∧
    (CollapsedGroup.render s tr).width =
      max (tr.width + 2 * (s.hCellPadding + s.hTextPadding) +
        (CollapsedGroup.nBackRect : ℤ) * s.collapsedGroupXShift) s.minWidth ∧
    s.minWidth ≤ (CollapsedGroup.render s tr).width := by
  refine ⟨?_, ?_, le_max_right _ _, ?_, ?_, le_max_right _ _⟩ <;>
    simp [EmptyGroup.render, CollapsedGroup.render] <;> ring_nf

/-- C9: `HGroupSpacerCell.render` returns
`(count * 2 * openGroupHSpacer, 0)` — the height is always zero — and
`HGroupSpacerCell.draw` adds nothing to the scene and changes no state
other than recording `baseX` and `baseY`. -/
theorem hgroupspacer_render_and_draw (s : Settings)
    (c : HGroupSpacerCellState) (bX bY : ℤ) :
    (HGroupSpacerCell.render s c).2 = (c.count * 2 * s.openGroupHSpacer, 0) ∧
    (HGroupSpacerCell.render s c).2.2 = 0 ∧
    (HGroupSpacerCell.draw c bX bY).2 = [] ∧
    (HGroupSpacerCell.draw c bX bY).1 = { c with baseX := bX, baseY := bY } :=
  ⟨rfl, rfl, rfl, rfl⟩

/-- C10: under the precondition that `groupEndCMLRef` has been set,
`getLineRange` returns `[beginCMLRef.ref.beginLine, endCMLRef.ref.endLine]`,
`getAbsPosRange` returns `[beginCMLRef.ref.begin, endCMLRef.ref.end]`, and
`getSelectTooltip` returns `'Group at lines '` followed by the two line
numbers separated by `'-'`; no `None`-dereference occurs. -/
theorem group_ranges_need_end_ref (g : GroupItemBase) (e : CMLRef)
    (h : g.groupEndCMLRef = some e) :
    g.getLineRange = some [g.groupBeginCMLRef.ref.beginLine, e.ref.endLine] ∧
    g.getAbsPosRange = some [g.groupBeginCMLRef.ref.beginPos, e.ref.endPos] ∧
    g.getSelectTooltip = some ("Group at lines " ++
      toString g.groupBeginCMLRef.ref.beginLine ++ "-" ++
      toString e.ref.endLine) := by
  refine ⟨?_, ?_, ?_⟩ <;>
    simp [GroupItemBase.getLineRange, GroupItemBase.getAbsPosRange,
      GroupItemBase.getSelectTooltip, h]

/-- Witness for C10 at a concrete group running from line 3 to line 7. -/
theorem group_ranges_need_end_ref_witness :
    (({ groupBeginCMLRef := ⟨1, ⟨3, 7, 10, 20⟩, "t"⟩,
        groupEndCMLRef := some ⟨1, ⟨3, 7, 10, 20⟩, "t"⟩,
        isTerminal := false } : GroupItemBase).groupEndCMLRef =
      some ⟨1, ⟨3, 7, 10, 20⟩, "t"⟩) ∧
    ({ groupBeginCMLRef := ⟨1, ⟨3, 7, 10, 20⟩, "t"⟩,
       groupEndCMLRef := some ⟨1, ⟨3, 7, 10, 20⟩, "t"⟩,
       isTerminal := false } : GroupItemBase).getSelectTooltip =
      some "Group at lines 3-7" := by
  refine ⟨rfl, ?_⟩
  have h := group_ranges_need_end_ref
    { groupBeginCMLRef := ⟨1, ⟨3, 7, 10, 20⟩, "t"⟩,
      groupEndCMLRef := some ⟨1, ⟨3, 7, 10, 20⟩, "t"⟩,
      isTerminal := false } ⟨1, ⟨3, 7, 10, 20⟩, "t"⟩ rfl
  simpa using h.2.2

/-- C2: when `isTerminal` is false, `OpenedGroupBegin.draw` and
`OpenedGroupEnd.draw` create exactly one vertical connector at
`x = baseX + mainLine + selfAndDeeperNestLevel * (2 * openGroupHSpacer)`,
running from `baseY` down to `baseY + 2 * openGroupVSpacer`; when
`isTerminal` is true no connector is created. -/
theorem nested_connector_offset (s : Settings) (lvl gw gh bX bY : ℤ) :
    (OpenedGroupBegin.draw s false lvl gw gh bX bY).filter
        SceneItem.isConnector =
      [SceneItem.connector
        (bX + s.mainLine + lvl * (2 * s.openGroupHSpacer)) bY
        (bX + s.mainLine + lvl * (2 * s.openGroupHSpacer))
        (bY + s.openGroupVSpacer * 2)] ∧
    (OpenedGroupBegin.draw s true lvl gw gh bX bY).filter
        SceneItem.isConnector = [] ∧
    OpenedGroupEnd.draw s false lvl bX bY =
      [SceneItem.connector
        (bX + s.mainLine + lvl * (2 * s.openGroupHSpacer)) bY
        (bX + s.mainLine + lvl * (2 * s.openGroupHSpacer))
        (bY + s.openGroupVSpacer * 2)] ∧
    OpenedGroupEnd.draw s true lvl bX bY = [] :=
  ⟨rfl, rfl, rfl, rfl⟩

/-- C6: `OpenedGroupBegin.draw` inserts items into the scene in the order
group rectangle, then (when not terminal) the connector, then the corner
control; the connector is never added before the group rectangle. -/
theorem opened_group_begin_scene_order (s : Settings) (lvl gw gh bX bY : ℤ) :
    OpenedGroupBegin.draw s false lvl gw gh bX bY =
      [SceneItem.groupRect
        (bX - (s.selectPenWidth - 1) + s.openGroupHSpacer)
        (bY - (s.selectPenWidth - 1) + s.openGroupVSpacer)
        (gw + 2 * s.openGroupHSpacer + 2 * (s.selectPenWidth - 1))
        (gh + 2 * ((s.selectPenWidth - 1) + s.openGroupVSpacer)),
       SceneItem.connector
        (bX + s.mainLine + lvl * (2 * s.openGroupHSpacer)) bY
        (bX + s.mainLine + lvl * (2 * s.openGroupHSpacer))
        (bY + s.openGroupVSpacer * 2),
       SceneItem.cornerControl bX bY] ∧
    OpenedGroupBegin.draw s true lvl gw gh bX bY =
      [SceneItem.groupRect
        (bX - (s.selectPenWidth - 1) + s.openGroupHSpacer)
        (bY - (s.selectPenWidth - 1) + s.openGroupVSpacer)
        (gw + 2 * s.openGroupHSpacer + 2 * (s.selectPenWidth - 1))
        (gh + 2 * ((s.selectPenWidth - 1) + s.openGroupVSpacer)),
       SceneItem.cornerControl bX bY] :=
  ⟨rfl, rfl⟩

/-- C3: `EmptyGroup.paint` and `CollapsedGroup.paint` draw exactly
`N_BACK_RECT + 1 = 3` rectangles of identical width and height, back to
front (`rectNum` from 2 down to 0), rectangle `rectNum` being placed at
`x = baseX + hCellPadding + rectNum * XShift` and
`y = baseY + vCellPadding + (N_BACK_RECT - rectNum) * YShift`. -/
theorem paint_card_stack (s : Settings) (bX bY mw mh : ℤ)
    (tr : TextRect) (t : String) :
    ((EmptyGroup.paint s bX bY mw mh tr t).filter PaintCmd.isRect).length = 3 ∧
    EmptyGroup.paintRects s bX bY mw mh =
      [PaintCmd.drawRect (bX + s.hCellPadding + 2 * s.emptyGroupXShift)
         (bY + s.vCellPadding + 0 * s.emptyGroupYShift)
         (EmptyGroup.rectWidth s mw) (EmptyGroup.rectHeight s mh),
       PaintCmd.drawRect (bX + s.hCellPadding + 1 * s.emptyGroupXShift)
         (bY + s.vCellPadding + 1 * s.emptyGroupYShift)
         (EmptyGroup.rectWidth s mw) (EmptyGroup.rectHeight s mh),
       PaintCmd.drawRect (bX + s.hCellPadding + 0 * s.emptyGroupXShift)
         (bY + s.vCellPadding + 2 * s.emptyGroupYShift)
         (EmptyGroup.rectWidth s mw) (EmptyGroup.rectHeight s mh)] ∧
    ((CollapsedGroup.paint s bX bY mw mh tr t).filter PaintCmd.isRect).length
      = 3 ∧
    CollapsedGroup.paintRects s bX bY mw mh =
      [PaintCmd.drawRect (bX + s.hCellPadding + 2 * s.collapsedGroupXShift)
         (bY + s.vCellPadding + 0 * s.collapsedGroupYShift)
         (CollapsedGroup.rectWidth s mw) (CollapsedGroup.rectHeight s mh),
       PaintCmd.drawRect (bX + s.hCellPadding + 1 * s.collapsedGroupXShift)
         (bY + s.vCellPadding + 1 * s.collapsedGroupYShift)
         (CollapsedGroup.rectWidth s mw) (CollapsedGroup.rectHeight s mh),
       PaintCmd.drawRect (bX + s.hCellPadding + 0 * s.collapsedGroupXShift)
         (bY + s.vCellPadding + 2 * s.collapsedGroupYShift)
         (CollapsedGroup.rectWidth s mw) (CollapsedGroup.rectHeight s mh)] :=
  ⟨rfl, rfl, rfl, rfl⟩

/-- C7: `EmptyGroup.paint` and `CollapsedGroup.paint` draw the title text
horizontally centred in the front rectangle: the text's left edge is at
`baseX + hCellPadding + hTextPadding +
(rectWidth - (textRect.width + 2 * hTextPadding)) / 2` where `rectWidth`
is the front rectangle's width, and the text's top edge is at
`baseY + vCellPadding + vTextPadding + N_BACK_RECT * YShift`. -/
theorem paint_text_centred (s : Settings) (bX bY mw mh : ℤ)
    (tr : TextRect) (t : String) :
    EmptyGroup.paintText s bX bY mw tr t =
      PaintCmd.drawText
        ((bX : ℚ) + (s.hCellPadding : ℚ) + (s.hTextPadding : ℚ) +
          ((EmptyGroup.rectWidth s mw : ℚ) -
            ((tr.width : ℚ) + 2 * (s.hTextPadding : ℚ))) / 2)
        (bY + s.vCellPadding + s.vTextPadding + 2 * s.emptyGroupYShift)
        tr.width tr.height t ∧
    (EmptyGroup.paintRects s bX bY mw mh).getLast? =
      some (PaintCmd.drawRect (bX + s.hCellPadding + 0 * s.emptyGroupXShift)
        (bY + s.vCellPadding + 2 * s.emptyGroupYShift)
        (EmptyGroup.rectWidth s mw) (EmptyGroup.rectHeight s mh)) ∧
    CollapsedGroup.paintText s bX bY mw tr t =
      PaintCmd.drawText
        ((bX : ℚ) + (s.hCellPadding : ℚ) + (s.hTextPadding : ℚ) +
          ((CollapsedGroup.rectWidth s mw : ℚ) -
            ((tr.width : ℚ) + 2 * (s.hTextPadding : ℚ))) / 2)
        (bY + s.vCellPadding + s.vTextPadding + 2 * s.collapsedGroupYShift)
        tr.width tr.height t ∧
    (CollapsedGroup.paintRects s bX bY mw mh).getLast? =
      some (PaintCmd.drawRect (bX + s.hCellPadding + 0 * s.collapsedGroupXShift)
        (bY + s.vCellPadding + 2 * s.collapsedGroupYShift)
        (CollapsedGroup.rectWidth s mw) (CollapsedGroup.rectHeight s mh)) := by
  refine ⟨?_, rfl, ?_, rfl⟩ <;>
    · simp only [EmptyGroup.paintText, CollapsedGroup.paintText,
        PaintCmd.drawText.injEq, EmptyGroup.nBackRect, CollapsedGroup.nBackRect]
      refine ⟨?_, by push_cast; ring, trivial, trivial, trivial⟩
      push_cast
      ring

/-- C4: hover-enter sets the group's highlight to `true` and shows the
title popup iff the title is non-empty; hover-leave resets the highlight
to `false` and hides the popup; `setHighlight` leaves the stored flag
equal to the new value in every case and requests a repaint exactly when
the value changed and the group is not selected. -/
theorem corner_control_hover_behaviour (g : GroupHoverState) (title : String)
    (v : Bool) :
    (GroupCornerControl.hoverEnterEvent g title).1.highlight = true ∧
    ((GroupCornerControl.hoverEnterEvent { g with popupShown := false }
        title).1.popupShown = true ↔ title ≠ "") ∧
    (GroupCornerControl.hoverLeaveEvent g).1.highlight = false ∧
    (GroupCornerControl.hoverLeaveEvent g).1.popupShown = false ∧
    (OpenedGroupBegin.setHighlight g v).1.highlight = v ∧
    ((OpenedGroupBegin.setHighlight g v).2 = true ↔
      (g.highlight ≠ v ∧ g.selected = false)) := by
  rcases g with ⟨hl, sel, pop⟩
  cases hl <;> cases sel <;> cases v <;>
    by_cases ht : title = "" <;>
      simp [GroupCornerControl.hoverEnterEvent,
        GroupCornerControl.hoverLeaveEvent, OpenedGroupBegin.setHighlight, ht]

/-- C5: `GroupTitlePopup.resize` maps the corner control's bounding-rect
top-left corner item → scene → view → global and moves the popup to
`(pos.x, pos.y - height - 2)`, so its bottom edge sits 2 pixels above the
global point; `GroupTitlePopup.show` first moves the popup off-screen to
`(0, screenHeight + 128)`, then shows it, then repositions it. -/
theorem popup_screen_coordinate_mapping
    (mts mfs mtg : Point → Point) (tl : Point) (h sh : ℤ) :
    GroupTitlePopup.resize mts mfs mtg tl h =
      { x := (mtg (mfs (mts tl))).x, y := (mtg (mfs (mts tl))).y - h - 2 } ∧
    (GroupTitlePopup.resize mts mfs mtg tl h).y + h =
      (mtg (mfs (mts tl))).y - 2 ∧
    GroupTitlePopup.showTrace sh mts mfs mtg tl h =
      [PopupEvent.move 0 (sh + 128), PopupEvent.shown,
       PopupEvent.move (mtg (mfs (mts tl))).x
         ((mtg (mfs (mts tl))).y - h - 2)] :=
  ⟨rfl, by simp [GroupTitlePopup.resize]; ring, rfl⟩

/-- C8: the flowparser component's `setup.py` performs exactly one
`setup()` call, declaring the pure-Python module `cdmcfparser` and one
native extension `_cdmpycfparser` built from the four C sources, and the
script defines no functions or classes of its own. -/
theorem flowparser_setup_script_shape :
    (flowparserSetupScript.filter PyStatement.isSetupCall).length = 1 ∧
    flowparserSetupScript.filter PyStatement.isDef = [] ∧
    flowparserSetupScript.filter PyStatement.isSetupCall =
      [PyStatement.setupCall
        { name := "cdmpycfparser",
          version := "trunk",
          py_modules := ["cdmcfparser"],
          ext_modules :=
            [{ name := "_cdmpycfparser",
               sources := ["cdmpycfparser.c", "lexerutils.c",
                           "pythoncontrolflowLexer.c",
                           "pythoncontrolflowParser.c"],
               extra_compile_args :=
                 ["-Wno-unused", "-fomit-frame-pointer",
                  "-DCDM_PY_PARSER_VERSION=\x22trunk\x22",
                  "-I../thirdparty/libantlr3c-3.2",
                  "-I../thirdparty/libantlr3c-3.2/include",
                  "-ffast-math"],
               extra_link_args :=
                 ["../thirdparty/libantlr3c-3.2/.libs/libantlr3c.a"] }] }] :=
  ⟨rfl, rfl, rfl⟩

end Codimension
